import Mathlib

/-!
Shallow embedding of the Eufy Robovac integration
(`custom_components/robovac/vacuum.py`): the capability-resolution /
state-interpretation / command-encoding core.  Raw data-point values are
modelled by `RawValue` (Python `None` / `bool` / `int` / `str`), a raw
snapshot by an association list, and each method of `RoboVacEntity` that
the claims touch by a Lean function translated line by line from the
source.
-/

namespace Robovac

/-- A raw data-point value as the vendor protocol delivers it: Python
`None`, `bool`, `int` or `str`. -/
inductive RawValue where
  | vnone : RawValue
  | vbool : Bool → RawValue
  | vint : Int → RawValue
  | vstr : String → RawValue
  deriving DecidableEq, Repr

open RawValue

/-- Python `==` on raw values: booleans and integers compare numerically
(`True == 1`, `False == 0`), `None` equals only `None`, strings equal only
equal strings. -/
def pyEq : RawValue → RawValue → Bool
  | vnone, vnone => true
  | vbool a, vbool b => a == b
  | vbool a, vint n => (if a then (1 : Int) else 0) == n
  | vint n, vbool a => n == (if a then (1 : Int) else 0)
  | vint m, vint n => m == n
  | vstr s, vstr t => s == t
  | _, _ => false

/-- Python `x in [a, b, ...]` membership, which uses `==` elementwise. -/
def pyIn (v : RawValue) (l : List RawValue) : Bool :=
  l.any (pyEq v)

/-- Python truthiness of a raw value (`if self.do_not_disturb:` etc.):
`None` and `False` and `0` and `""` are falsy, everything else truthy. -/
def pyTruthy : RawValue → Bool
  | vnone => false
  | vbool b => b
  | vint n => n != 0
  | vstr s => s != ""

/-- In Python `type(x)` is a type object and is never `None`, so the
source's guard `type(self.error_code) is not None` is identically true,
whatever the value (including `None`, whose type is `NoneType`). -/
def pyTypeIsNotNone (_ : RawValue) : Bool := true

/-- A raw data-point snapshot: mapping from short code to current value,
as fetched from the device (`self.tuyastatus`). -/
abbrev RawSnapshot := List (String × RawValue)

/-- Python `dict.get(code)`: the stored value, or `None` when the code is
absent from the snapshot. -/
def rawGet (s : RawSnapshot) (code : String) : RawValue :=
  match s.lookup code with
  | some v => v
  | none => vnone

-- The static data-point code table (`TUYA_CODES`).
namespace TUYA_CODES

def BATTERY_LEVEL : String := "104"

def STATE : String := "15"

def ERROR_CODE : String := "106"

def MODE : String := "5"

def FAN_SPEED : String := "102"

def CLEANING_AREA : String := "110"

def CLEANING_TIME : String := "109"

def AUTO_RETURN : String := "135"

def DO_NOT_DISTURB : String := "107"

def BOOST_IQ : String := "118"

def G_CONSUMABLES : String := "142"

def X_CONSUMABLES : String := "116"

end TUYA_CODES

/-- Host-framework lifecycle state constant `STATE_CLEANING`. -/
def STATE_CLEANING : String := "cleaning"

/-- Host-framework lifecycle state constant `STATE_DOCKED`. -/
def STATE_DOCKED : String := "docked"

/-- Host-framework lifecycle state constant `STATE_ERROR`. -/
def STATE_ERROR : String := "error"

/-- Host-framework lifecycle state constant `STATE_IDLE`. -/
def STATE_IDLE : String := "idle"

/-- Host-framework lifecycle state constant `STATE_RETURNING`. -/
def STATE_RETURNING : String := "returning"

/-- The `RoboVacEntity.state` property, translated condition for
condition: `self.tuya_state` is the raw state value (code "15") and
`self.error_code` the raw error value (code "106"), both `vnone` when the
code was absent.  The first guard is the source's
`self.tuya_state is None or (type(self.error_code) is not None and
self.error_code not in [0, "no_error"])`. -/
def stateProp (tuya_state error_code : RawValue) : String :=
  if tuya_state == vnone
      || (pyTypeIsNotNone error_code && !(pyIn error_code [vint 0, vstr "no_error"])) then
    STATE_ERROR
  else if pyEq tuya_state (vstr "Charging") || pyEq tuya_state (vstr "completed") then
    STATE_DOCKED
  else if pyEq tuya_state (vstr "Recharge") then
    STATE_RETURNING
  else if pyEq tuya_state (vstr "Sleeping") || pyEq tuya_state (vstr "standby") then
    STATE_IDLE
  else
    STATE_CLEANING

/-- The `ERROR_MESSAGES` table, in source order.  Keys are the raw error
codes (mixed `int` and `str` keys, exactly as in the Python dict). -/
def ERROR_MESSAGES : List (RawValue × String) :=
  [ (vstr "IP_ADDRESS", "IP Address not set"),
    (vint 1, "Error: Front bumper stuck"),
    (vint 2, "Error: Wheel stuck"),
    (vint 3, "Error: Side brush"),
    (vint 4, "Error: Rolling brush bar stuck"),
    (vint 5, "Error: Device trapped"),
    (vint 6, "Error: Device trapped"),
    (vint 7, "Error: Wheel suspended"),
    (vint 8, "Error: Low battery"),
    (vint 9, "Error: Magnetic boundary"),
    (vint 12, "Error: Right wall sensor"),
    (vint 13, "Error: Device tilted"),
    (vint 14, "Error: Insert dust collector"),
    (vint 17, "Error: Restricted area detected"),
    (vint 18, "Error: Laser cover stuck"),
    (vint 19, "Error: Laser sesor stuck"),
    (vint 20, "Error: Laser sensor blocked"),
    (vint 21, "Error: Base blocked"),
    (vstr "S1", "Error: Battery"),
    (vstr "S2", "Error: Wheel Module"),
    (vstr "S3", "Error: Side Brush"),
    (vstr "S4", "Error: Suction Fan"),
    (vstr "S5", "Error: Rolling Brush"),
    (vstr "S8", "Error: Path Tracking Sensor"),
    (vstr "Wheel_stuck", "Error: Wheel stuck"),
    (vstr "R_brush_stuck", "Error: Rolling brush stuck"),
    (vstr "Crash_bar_stuck", "Error: Front bumper stuck"),
    (vstr "sensor_dirty", "Error: Sensor dirty"),
    (vstr "N_enough_pow", "Error: Low battery"),
    (vstr "Stuck_5_min", "Error: Device trapped"),
    (vstr "Fan_stuck", "Error: Fan stuck"),
    (vstr "S_brush_stuck", "Error: Side brush stuck") ]

/-- Dict lookup under Python key equality: first table entry whose key
compares `==` to the probe (the table has no duplicate keys under `==`,
so this agrees with Python dict lookup). -/
def lookupPy (table : List (RawValue × String)) (code : RawValue) : Option String :=
  match table with
  | [] => none
  | (k, m) :: rest => if pyEq k code then some m else lookupPy rest code

/-- `ERROR_MESSAGES.get(self.error_code, self.error_code)`: the mapped
human-readable message when the code is a known key, else the code itself
passed through unmodified. -/
def errDescribe (code : RawValue) : RawValue :=
  match lookupPy ERROR_MESSAGES code with
  | some m => vstr m
  | none => code

/-- A Python literal value, as produced by `ast.literal_eval` on the
decoded consumables text.  The model covers the dict / string / integer
sublanguage the blobs use; a literal outside this sublanguage makes the
parser below fail (the decode chain then errors, which the claims only
exercise on inputs where CPython errors too). -/
inductive PyVal where
  | pint : Int → PyVal
  | pstr : String → PyVal
  | pdict : List (String × PyVal) → PyVal
  deriving Repr

/-- One base64 data character (`A-Z a-z 0-9 + /`). -/
def b64Char (c : Char) : Bool :=
  c.isAlphanum || c == '+' || c == '/'

/-- The 6-bit value of a base64 data character. -/
def b64Val (c : Char) : Nat :=
  if c.isUpper then c.toNat - 65
  else if c.isLower then c.toNat - 97 + 26
  else if c.isDigit then c.toNat - 48 + 52
  else if c == '+' then 62
  else 63

/-- Decode base64 quads to bytes.  The final quad may carry one (`xx==`)
or two (`xxx=`) padding characters; a leftover group of fewer than four
characters, or padding anywhere else, is the `binascii.Error` CPython
raises (`Incorrect padding` / invalid padding placement). -/
def decodeQuads : List Char → Except String (List Nat)
  | [] => .ok []
  | a :: b :: c :: d :: rest =>
    if a == '=' || b == '=' then .error "binascii.Error: invalid padding"
    else if c == '=' then
      if d == '=' && rest.isEmpty then
        .ok [b64Val a * 4 + b64Val b / 16]
      else .error "binascii.Error: invalid padding"
    else if d == '=' then
      if rest.isEmpty then
        .ok [b64Val a * 4 + b64Val b / 16, (b64Val b % 16) * 16 + b64Val c / 4]
      else .error "binascii.Error: invalid padding"
    else do
      let bs ← decodeQuads rest
      .ok ([b64Val a * 4 + b64Val b / 16,
            (b64Val b % 16) * 16 + b64Val c / 4,
            (b64Val c % 4) * 64 + b64Val d] ++ bs)
  | _ => .error "binascii.Error: Incorrect padding"

/-- `base64.b64decode` on a `str` argument with the default
`validate=False`: the string is first ASCII-encoded (error on a non-ASCII
character), characters outside the base64 alphabet and padding are
discarded, and the remainder is decoded quad by quad. -/
def b64decode (s : String) : Except String (List Nat) :=
  if s.toList.any (fun c => 128 ≤ c.toNat) then
    .error "ValueError: string argument should contain only ASCII characters"
  else
    decodeQuads (s.toList.filter (fun c => b64Char c || c == '='))

/-- `bytes.decode("ascii")`: error on any byte outside 0..127. -/
def asciiDecode (bs : List Nat) : Except String String :=
  if bs.all (· < 128) then
    .ok (String.mk (bs.map Char.ofNat))
  else .error "UnicodeDecodeError"

/-- Skip ASCII whitespace. -/
def skipWs : List Char → List Char
  | c :: cs => if c == ' ' || c == '\n' || c == '\t' || c == '\r' then skipWs cs else c :: cs
  | [] => []

/-- Body of a quoted Python string literal, up to the closing quote `q`;
escapes are outside the modelled sublanguage. -/
def parseStrBody (q : Char) : List Char → Except String (String × List Char)
  | [] => .error "SyntaxError: EOL while scanning string literal"
  | c :: cs =>
    if c == q then .ok ("", cs)
    else if c == '\\' then .error "unsupported escape"
    else do
      let (s, rest) ← parseStrBody q cs
      .ok (String.mk (c :: s.toList), rest)

/-- An optionally negated decimal integer literal. -/
def parseIntTok (cs : List Char) : Except String (Int × List Char) :=
  let (neg, cs') := match cs with
    | '-' :: rest => (true, rest)
    | _ => (false, cs)
  let ds := cs'.takeWhile Char.isDigit
  if ds.isEmpty then .error "SyntaxError: invalid literal"
  else
    let n : Nat := ds.foldl (fun acc c => acc * 10 + (c.toNat - 48)) 0
    .ok (if neg then -(n : Int) else (n : Int), cs'.dropWhile Char.isDigit)

mutual

/-- Parse one Python literal (dict, string or integer sublanguage of
`ast.literal_eval`), fuelled for termination. -/
def parseVal : Nat → List Char → Except String (PyVal × List Char)
  | 0, _ => .error "fuel exhausted"
  | fuel + 1, cs =>
    match skipWs cs with
    | [] => .error "SyntaxError: unexpected EOF"
    | c :: rest =>
      if c == '{' then parseDict fuel rest
      else if c == '\'' || c == '"' then do
        let (s, r) ← parseStrBody c rest
        .ok (.pstr s, r)
      else if c == '-' || c.isDigit then do
        let (n, r) ← parseIntTok (c :: rest)
        .ok (.pint n, r)
      else .error "SyntaxError: unsupported literal"

/-- Parse the inside of a dict literal, after the opening brace. -/
def parseDict : Nat → List Char → Except String (PyVal × List Char)
  | 0, _ => .error "fuel exhausted"
  | fuel + 1, cs =>
    match skipWs cs with
    | '}' :: rest => .ok (.pdict [], rest)
    | cs' => parseEntries fuel cs' []

/-- Parse dict entries `key: value` separated by commas, accumulating in
source order, until the closing brace. -/
def parseEntries : Nat → List Char → List (String × PyVal) →
    Except String (PyVal × List Char)
  | 0, _, _ => .error "fuel exhausted"
  | fuel + 1, cs, acc =>
    match skipWs cs with
    | q :: rest =>
      if q == '\'' || q == '"' then do
        let (k, r1) ← parseStrBody q rest
        match skipWs r1 with
        | ':' :: r2 => do
          let (v, r3) ← parseVal fuel r2
          match skipWs r3 with
          | ',' :: r4 => parseEntries fuel r4 (acc ++ [(k, v)])
          | '}' :: r4 => .ok (.pdict (acc ++ [(k, v)]), r4)
          | _ => .error "SyntaxError: expected comma or closing brace"
        | _ => .error "SyntaxError: expected colon"
      else .error "SyntaxError: dict key outside modelled sublanguage"
    | [] => .error "SyntaxError: unexpected EOF in dict"

end

/-- `ast.literal_eval`: parse one literal and require only whitespace to
remain. -/
def literalEval (s : String) : Except String PyVal := do
  let (v, rest) ← parseVal (s.length + 1) s.toList
  if (skipWs rest).isEmpty then .ok v
  else .error "SyntaxError: extra data"

/-- Python subscript `v[k]` on a decoded literal: `KeyError` when the key
is missing, `TypeError` when the value is not a dict. -/
def pySubscript (v : PyVal) (k : String) : Except String PyVal :=
  match v with
  | .pdict es =>
    match es.lookup k with
    | some w => .ok w
    | none => .error "KeyError"
  | _ => .error "TypeError: not subscriptable"

/-- The consumables decode chain of `async_update`:
`ast.literal_eval(base64.b64decode(blob).decode("ascii"))["consumable"]["duration"]`.
A non-string raw value is the `TypeError` `b64decode` raises on it. -/
def decodeConsumables : RawValue → Except String PyVal
  | vstr s => do
    let bs ← b64decode s
    let txt ← asciiDecode bs
    let v ← literalEval txt
    let c ← pySubscript v "consumable"
    pySubscript c "duration"
  | _ => .error "TypeError: argument should be a bytes-like object or ASCII string"

/-- The entity fields `async_update` (re)populates from a raw snapshot:
one semantic device snapshot.  Every field but `consumables` is the raw
value copied from the snapshot (`vnone` when the code was absent);
`consumables` is the decoded wear value, `none` when never assigned
(Python `None` from `__init__`). -/
structure InterpState where
  battery_level : RawValue
  tuya_state : RawValue
  error_code : RawValue
  mode : RawValue
  fan_speed : RawValue
  cleaning_area : RawValue
  cleaning_time : RawValue
  auto_return : RawValue
  do_not_disturb : RawValue
  boost_iq : RawValue
  consumables : Option PyVal
  deriving Repr

/-- The fan-speed read-side alias rewrite of `async_update`:
`No_suction` → `No Suction`, `Boost_IQ` → `Boost IQ`, `Quiet` → `Pure`
(comparisons are Python `==` against string literals). -/
def fanSpeedReadAlias (v : RawValue) : RawValue :=
  if pyEq v (vstr "No_suction") then vstr "No Suction"
  else if pyEq v (vstr "Boost_IQ") then vstr "Boost IQ"
  else if pyEq v (vstr "Quiet") then vstr "Pure"
  else v

/-- One consumables step of `async_update`: when the blob code is present
(`is not None`) decode it (any decode failure propagates, as in the
unguarded source), otherwise keep the current value. -/
def updateConsumables (cur : Option PyVal) (v : RawValue) : Except String (Option PyVal) :=
  if v == vnone then .ok cur
  else (decodeConsumables v).map some

/-- `RoboVacEntity.async_update` as a function of the previous
`consumables` value and the fetched snapshot: every other field is
overwritten from the snapshot; code "142" is checked first, code "116"
second (overwriting); an exception anywhere in a decode chain aborts the
whole update (`.error`). -/
def asyncUpdate (prev : Option PyVal) (s : RawSnapshot) : Except String InterpState :=
  match updateConsumables prev (rawGet s TUYA_CODES.G_CONSUMABLES) with
  | .error e => .error e
  | .ok c142 =>
    match updateConsumables c142 (rawGet s TUYA_CODES.X_CONSUMABLES) with
    | .error e => .error e
    | .ok c116 =>
      .ok { battery_level := rawGet s TUYA_CODES.BATTERY_LEVEL
            tuya_state := rawGet s TUYA_CODES.STATE
            error_code := rawGet s TUYA_CODES.ERROR_CODE
            mode := rawGet s TUYA_CODES.MODE
            fan_speed := fanSpeedReadAlias (rawGet s TUYA_CODES.FAN_SPEED)
            cleaning_area := rawGet s TUYA_CODES.CLEANING_AREA
            cleaning_time := rawGet s TUYA_CODES.CLEANING_TIME
            auto_return := rawGet s TUYA_CODES.AUTO_RETURN
            do_not_disturb := rawGet s TUYA_CODES.DO_NOT_DISTURB
            boost_iq := rawGet s TUYA_CODES.BOOST_IQ
            consumables := c116 }

/-- One `self.vacuum.async_set({...}, None)` call: the dict of
data-point writes sent atomically in a single device message. -/
abbrev WriteCall := List (String × RawValue)

/-- `async_return_to_base`: the single write `{"101": True}` (the
follow-up sleep and poll are host-side, not writes). -/
def asyncReturnToBaseCalls : List WriteCall :=
  [[("101", vbool true)]]

/-- `async_stop` simply delegates to `async_return_to_base`. -/
def asyncStopCalls : List WriteCall :=
  asyncReturnToBaseCalls

/-- Modelled from the spec: `async_start` reads `self.status`, an
attribute defined nowhere under `src/` (the entity and its host base
class define `state`, not `status`).  The spec describes the override
condition as the device being docked — lifecycle DOCKED, i.e. raw device
state `"Charging"` or `"completed"`, the very tokens the source compares
against — so `status` is modelled as the raw device state value. -/
def statusModel (st : InterpState) : RawValue :=
  st.tuya_state

/-- The mode value `async_start` writes to code "5": the current mode,
overridden to `"auto"` when the mode is `"Nosweep"`, or when the mode is
`"room"` and `self.status` is `"Charging"` or `"completed"`. -/
def asyncStartMode (st : InterpState) : RawValue :=
  if pyEq st.mode (vstr "Nosweep") then vstr "auto"
  else if pyEq st.mode (vstr "room") &&
      (pyEq (statusModel st) (vstr "Charging") || pyEq (statusModel st) (vstr "completed")) then
    vstr "auto"
  else st.mode

/-- `async_start`: the single write `{"5": mode}` with the possibly
overridden mode. -/
def asyncStartCalls (st : InterpState) : List WriteCall :=
  [[("5", asyncStartMode st)]]

/-- `async_set_fan_speed`: write-side normalization of the semantic
label before writing it to code "102" — the reverse of
`fanSpeedReadAlias`. -/
def fanSpeedWriteAlias (fan_speed : String) : String :=
  if fan_speed == "No Suction" then "No_suction"
  else if fan_speed == "Boost IQ" then "Boost_IQ"
  else if fan_speed == "Pure" then "Quiet"
  else fan_speed

/-- `async_set_fan_speed`: the single write of the normalized label to
code "102". -/
def asyncSetFanSpeedCalls (fan_speed : String) : List WriteCall :=
  [[("102", vstr (fanSpeedWriteAlias fan_speed))]]

/-- `async_send_command`: the sequence of `async_set` calls each branch
performs, as a function of the command name and the current entity
state.  Toggle branches test the current attribute's truthiness.  The
`roomClean` branch builds a timestamp-dependent payload and is outside
the claims' scope; like an unknown command name it is modelled as no
write here. -/
def asyncSendCommandCalls (command : String) (st : InterpState) : List WriteCall :=
  if command == "edgeClean" then [[("5", vstr "Edge")]]
  else if command == "smallRoomClean" then [[("5", vstr "SmallRoom")]]
  else if command == "autoClean" then [[("5", vstr "auto")]]
  else if command == "autoReturn" then
    if pyTruthy st.auto_return then [[("135", vbool false)]]
    else [[("135", vbool true)]]
  else if command == "doNotDisturb" then
    if pyTruthy st.do_not_disturb then
      [[("139", vstr "MEQ4MDAwMDAw")], [("107", vbool false)]]
    else
      [[("139", vstr "MTAwMDAwMDAw")], [("107", vbool true)]]
  else if command == "boostIQ" then
    if pyTruthy st.boost_iq then [[("118", vbool false)]]
    else [[("118", vbool true)]]
  else []

-- `RoboVacEntityFeature`: the integration's own feature-flag enum.
namespace RoboVacEntityFeature

def EDGE : Nat := 1

def SMALL_ROOM : Nat := 2

def CLEANING_TIME : Nat := 4

def CLEANING_AREA : Nat := 8

def DO_NOT_DISTURB : Nat := 16

def AUTO_RETURN : Nat := 32

def CONSUMABLES : Nat := 64

def ROOM : Nat := 128

def ZONE : Nat := 256

def MAP : Nat := 512

def BOOST_IQ : Nat := 1024

end RoboVacEntityFeature

-- `VacuumEntityFeature`: the host framework's `IntFlag` enum, an
-- external dependency of `src/`; the flag values are its published
-- constants.
namespace VacuumEntityFeature

def TURN_ON : Nat := 1

def TURN_OFF : Nat := 2

def PAUSE : Nat := 4

def STOP : Nat := 8

def RETURN_HOME : Nat := 16

def FAN_SPEED : Nat := 32

def BATTERY : Nat := 64

def STATUS : Nat := 128

def SEND_COMMAND : Nat := 256

def LOCATE : Nat := 512

def CLEAN_SPOT : Nat := 1024

def MAP : Nat := 2048

def STATE : Nat := 4096

def START : Nat := 8192

end VacuumEntityFeature

/-- Python truthiness of `mask & flag` in an `if`: the bitwise
intersection is non-zero. -/
def hasFlag (mask flag : Nat) : Bool :=
  mask &&& flag != 0

/-- The capability profile `__init__` derives from the model code: fan
speed vocabulary, integration feature bitmask (`_attr_robovac_supported`)
and host control-surface bitmask (`_attr_supported_features`). -/
structure CapabilityProfile where
  fan_speed_list : List String
  robovac_supported : Nat
  supported_features : Nat
  deriving DecidableEq, Repr

/-- The C-series model prefix table. -/
def cSeriesModels : List String :=
  ["T2103", "T2117", "T2118", "T2119", "T2120", "T2123", "T2128", "T2130"]

/-- The G-series model prefix table. -/
def gSeriesModels : List String :=
  ["T1250", "T2250", "T2251", "T2252", "T2253", "T2150", "T2255"]

/-- The X-series model prefix table, verbatim from the source (the two
six-character entries can never equal a five-character prefix). -/
def xSeriesModels : List String :=
  ["T2262", "T2262A", "T2261", "T2261A"]

/-- The control surface shared by the C- and G-series branches. -/
def baseSupportedFeatures : Nat :=
  VacuumEntityFeature.BATTERY ||| VacuumEntityFeature.CLEAN_SPOT |||
  VacuumEntityFeature.FAN_SPEED ||| VacuumEntityFeature.LOCATE |||
  VacuumEntityFeature.PAUSE ||| VacuumEntityFeature.RETURN_HOME |||
  VacuumEntityFeature.SEND_COMMAND ||| VacuumEntityFeature.START |||
  VacuumEntityFeature.STATE ||| VacuumEntityFeature.STOP

/-- Capability resolution from `__init__`: the model code's
five-character prefix (`self.model_code[0:5]`) is matched against the
three family tables; an unmatched prefix keeps the initial zero masks and
gets the single-entry fan list. -/
def resolveModel (model_code : String) : CapabilityProfile :=
  if model_code.take 5 ∈ cSeriesModels then
    { fan_speed_list := ["No Suction", "Standard", "Boost IQ", "Max"]
      robovac_supported := RoboVacEntityFeature.EDGE ||| RoboVacEntityFeature.SMALL_ROOM
      supported_features := baseSupportedFeatures }
  else if model_code.take 5 ∈ gSeriesModels then
    { fan_speed_list := ["Standard", "Turbo", "Max", "Boost IQ"]
      robovac_supported :=
        RoboVacEntityFeature.CLEANING_TIME ||| RoboVacEntityFeature.CLEANING_AREA |||
        RoboVacEntityFeature.DO_NOT_DISTURB ||| RoboVacEntityFeature.AUTO_RETURN |||
        RoboVacEntityFeature.CONSUMABLES
      supported_features := baseSupportedFeatures }
  else if model_code.take 5 ∈ xSeriesModels then
    { fan_speed_list := ["Pure", "Standard", "Turbo", "Max"]
      robovac_supported :=
        RoboVacEntityFeature.CLEANING_TIME ||| RoboVacEntityFeature.CLEANING_AREA |||
        RoboVacEntityFeature.DO_NOT_DISTURB ||| RoboVacEntityFeature.AUTO_RETURN |||
        RoboVacEntityFeature.CONSUMABLES ||| RoboVacEntityFeature.ROOM |||
        RoboVacEntityFeature.ZONE ||| RoboVacEntityFeature.MAP |||
        RoboVacEntityFeature.BOOST_IQ
      supported_features := baseSupportedFeatures ||| VacuumEntityFeature.MAP }
  else
    { fan_speed_list := ["Standard"]
      robovac_supported := 0
      supported_features := 0 }

/-- The minimal profile an unrecognized model prefix yields: zero masks
(empty feature and control-surface sets) and the single-entry fan-speed
vocabulary. -/
def defaultProfile : CapabilityProfile :=
  { fan_speed_list := ["Standard"], robovac_supported := 0, supported_features := 0 }

/-- A value in the exposed attribute map: a raw attribute value, the
battery icon the host derives from the battery level (external
derivation, recorded by its input), the lifecycle state string, or the
decoded consumables value. -/
inductive AttrVal where
  | raw : RawValue → AttrVal
  | icon : RawValue → AttrVal
  | lifecycle : String → AttrVal
  | consum : Option PyVal → AttrVal
  deriving Repr

/-- `RoboVacEntity.extra_state_attributes`: the attribute map built in
source order — `error` first, then host-gated battery / fan-speed /
status, then the integration-feature-gated extended attributes, then
`mode` last.  Dict insertion order with pairwise-distinct keys is
modelled as list concatenation. -/
def extraStateAttributes (st : InterpState) (supported robovac_supported : Nat) :
    List (String × AttrVal) :=
  [("error", .raw (errDescribe st.error_code))]
  ++ (if hasFlag supported VacuumEntityFeature.BATTERY then
        [("battery_level", .raw st.battery_level), ("battery_icon", .icon st.battery_level)]
      else [])
  ++ (if hasFlag supported VacuumEntityFeature.FAN_SPEED then
        [("fan_speed", .raw st.fan_speed)]
      else [])
  ++ (if hasFlag supported VacuumEntityFeature.STATUS then
        [("status", .lifecycle (stateProp st.tuya_state st.error_code))]
      else [])
  ++ (if hasFlag robovac_supported RoboVacEntityFeature.CLEANING_AREA then
        [("cleaning_area", .raw st.cleaning_area)]
      else [])
  ++ (if hasFlag robovac_supported RoboVacEntityFeature.CLEANING_TIME then
        [("cleaning_time", .raw st.cleaning_time)]
      else [])
  ++ (if hasFlag robovac_supported RoboVacEntityFeature.AUTO_RETURN then
        [("auto_return", .raw st.auto_return)]
      else [])
  ++ (if hasFlag robovac_supported RoboVacEntityFeature.DO_NOT_DISTURB then
        [("do_not_disturb", .raw st.do_not_disturb)]
      else [])
  ++ (if hasFlag robovac_supported RoboVacEntityFeature.BOOST_IQ then
        [("boost_iq", .raw st.boost_iq)]
      else [])
  ++ (if hasFlag robovac_supported RoboVacEntityFeature.CONSUMABLES then
        [("consumables", .consum st.consumables)]
      else [])
  ++ [("mode", .raw st.mode)]

/-- The keys exposed in the attribute map. -/
def attrKeys (st : InterpState) (supported robovac_supported : Nat) : List String :=
  (extraStateAttributes st supported robovac_supported).map Prod.fst

/-- The entity state as `__init__` leaves it: every attribute `None`. -/
def initState : InterpState :=
  { battery_level := vnone, tuya_state := vnone, error_code := vnone, mode := vnone,
    fan_speed := vnone, cleaning_area := vnone, cleaning_time := vnone,
    auto_return := vnone, do_not_disturb := vnone, boost_iq := vnone,
    consumables := none }

/-- C1: the lifecycle derivation does NOT match the claimed priority
chain: because `type(self.error_code) is not None` is identically true,
an ABSENT error code (`None`, which is not among the sentinels `0` /
`"no_error"`) also forces ERROR.  Evaluated at the failing input — raw
state `"Recharge"` with no error code — the code yields ERROR where the
claim requires RETURNING; with the sentinel error `0` it yields
RETURNING as claimed. -/
theorem claim_C1_state_bug_eval :
    stateProp (vstr "Recharge") vnone = STATE_ERROR ∧
    stateProp (vstr "Recharge") (vint 0) = STATE_RETURNING ∧
    stateProp vnone vnone = STATE_ERROR ∧
    stateProp (vstr "foo") (vint 5) = STATE_ERROR ∧
    stateProp (vstr "Sleeping") (vstr "no_error") = STATE_IDLE := by
  decide

/-- C10: `async_stop` is encoded identically to `async_return_to_base`,
a single write of `True` to code "101" (independent of any current
state: neither function reads the entity state). -/
theorem claim_C10_stop_is_return_to_base :
    asyncStopCalls = asyncReturnToBaseCalls ∧
    asyncReturnToBaseCalls = [[("101", vbool true)]] := by
  decide

/-- C4: for every alias pair in the fan-speed alias table, encoding
`SetFanSpeed(label)` writes the normalized raw token to code "102", and
interpreting a snapshot carrying exactly that token reads back the same
semantic label: `interpret(encode(label)) = label`. -/
theorem claim_C4_fan_speed_round_trip :
    asyncSetFanSpeedCalls "No Suction" = [[("102", vstr "No_suction")]] ∧
    (asyncUpdate none [("102", vstr "No_suction")]).map InterpState.fan_speed
      = .ok (vstr "No Suction") ∧
    asyncSetFanSpeedCalls "Boost IQ" = [[("102", vstr "Boost_IQ")]] ∧
    (asyncUpdate none [("102", vstr "Boost_IQ")]).map InterpState.fan_speed
      = .ok (vstr "Boost IQ") ∧
    asyncSetFanSpeedCalls "Pure" = [[("102", vstr "Quiet")]] ∧
    (asyncUpdate none [("102", vstr "Quiet")]).map InterpState.fan_speed
      = .ok (vstr "Pure") :=
  ⟨rfl, rfl, rfl, rfl, rfl, rfl⟩

/-- C3 counterexample: with the flag currently truthy, the
`doNotDisturb` branch performs TWO separate `async_set` calls — the
schedule blob and the enable flag travel in different write sets, and no
single atomic write set contains both codes — refuting "exactly two
writes in the same atomic write set". -/
theorem claim_C3_counterexample :
    asyncSendCommandCalls "doNotDisturb" { initState with do_not_disturb := vbool true }
      = [[("139", vstr "MEQ4MDAwMDAw")], [("107", vbool false)]] ∧
    ((asyncSendCommandCalls "doNotDisturb"
        { initState with do_not_disturb := vbool true }).all
      fun call => !((call.any fun p => p.1 == "139") &&
                    (call.any fun p => p.1 == "107"))) = true := by
  decide

/-- C3 (amended): for every current entity state, the `doNotDisturb`
toggle emits exactly two writes as two consecutive single-write sets
(separate `async_set` calls, not one atomic set), the schedule-blob
write (code "139") strictly before the enable-flag write (code "107"),
and the truthy→disable / falsy→enable invocations produce complementary
writes (blob "MEQ4MDAwMDAw" with flag `False` versus blob "MTAwMDAwMDAw"
with flag `True`). -/
theorem claim_C3_dnd_two_writes (st : InterpState) :
    asyncSendCommandCalls "doNotDisturb" st =
      if pyTruthy st.do_not_disturb then
        [[("139", vstr "MEQ4MDAwMDAw")], [("107", vbool false)]]
      else
        [[("139", vstr "MTAwMDAwMDAw")], [("107", vbool true)]] := by
  cases h : pyTruthy st.do_not_disturb <;> simp [asyncSendCommandCalls, h]

/-- C6: capability resolution is a total function of the model
identifier (a Lean function, never failing), it depends only on the
five-character prefix — equal prefixes yield equal profiles — and every
model identifier whose prefix is in none of the C-, G-, X-series tables
yields the minimal default profile: zero (empty) feature and
control-surface masks and the single-entry vocabulary `["Standard"]`. -/
theorem claim_C6_resolve_total_deterministic :
    (∀ m₁ m₂ : String, m₁.take 5 = m₂.take 5 → resolveModel m₁ = resolveModel m₂) ∧
    (∀ m : String, m.take 5 ∉ cSeriesModels → m.take 5 ∉ gSeriesModels →
      m.take 5 ∉ xSeriesModels → resolveModel m = defaultProfile) := by
  constructor
  · intro m₁ m₂ h
    simp only [resolveModel, h]
  · intro m h1 h2 h3
    simp [resolveModel, h1, h2, h3, defaultProfile]

/-- C6 witness: two concrete models sharing the prefix "T2118" resolve
identically, and the unknown model "T9999" resolves to the default
profile. -/
theorem claim_C6_witness :
    resolveModel "T2118A" = resolveModel "T2118B" ∧
    resolveModel "T9999" = defaultProfile :=
  ⟨claim_C6_resolve_total_deterministic.1 "T2118A" "T2118B" (by decide),
   claim_C6_resolve_total_deterministic.2 "T9999" (by decide) (by decide) (by decide)⟩

/-- C7: error description is total — for every key of the known table
(the numeric codes and the short-string codes) the mapper returns the
corresponding human-readable message, and every code with no table entry
is passed through unmodified; `errDescribe` is a total Lean function, so
lookup never fails. -/
theorem claim_C7_error_describe_total :
    (ERROR_MESSAGES.all fun km => errDescribe km.1 == vstr km.2) = true ∧
    (∀ code : RawValue, lookupPy ERROR_MESSAGES code = none → errDescribe code = code) := by
  constructor
  · decide
  · intro code h
    simp [errDescribe, h]

/-- C7 witness: the unknown numeric code `99` has no table entry and is
passed through unmodified. -/
theorem claim_C7_witness :
    errDescribe (vint 99) = vint 99 :=
  claim_C7_error_describe_total.2 (vint 99) (by decide)

/-- C5: `async_start` writes the current mode unchanged to code "5",
except the two state-dependent overrides — mode `"Nosweep"` is overridden
to `"auto"`; mode `"room"` with the derived lifecycle state DOCKED is
overridden to `"auto"`; mode `"room"` with lifecycle CLEANING is written
unchanged; and outside the two override conditions the mode passes
through unchanged.  (`self.status` is spec-modelled as the raw device
state, see `statusModel`.) -/
theorem claim_C5_start_mode_overrides :
    (∀ st : InterpState, pyEq st.mode (vstr "Nosweep") = true →
      asyncStartCalls st = [[("5", vstr "auto")]]) ∧
    (∀ st : InterpState, st.mode = vstr "room" →
      stateProp st.tuya_state st.error_code = STATE_DOCKED →
      asyncStartCalls st = [[("5", vstr "auto")]]) ∧
    (∀ st : InterpState, st.mode = vstr "room" →
      stateProp st.tuya_state st.error_code = STATE_CLEANING →
      asyncStartCalls st = [[("5", vstr "room")]]) ∧
    (∀ st : InterpState, pyEq st.mode (vstr "Nosweep") = false →
      (pyEq st.mode (vstr "room") &&
        (pyEq (statusModel st) (vstr "Charging") ||
         pyEq (statusModel st) (vstr "completed"))) = false →
      asyncStartCalls st = [[("5", st.mode)]]) := by
  have e1 : pyEq (vstr "room") (vstr "Nosweep") = false := by decide
  have e2 : pyEq (vstr "room") (vstr "room") = true := by decide
  refine ⟨?_, ?_, ?_, ?_⟩
  · intro st h
    simp [asyncStartCalls, asyncStartMode, h]
  · intro st hm h
    unfold stateProp at h
    split_ifs at h with h1 h2 h3 h4
    · exact absurd h (by decide)
    · simp [asyncStartCalls, asyncStartMode, statusModel, hm, e1, e2, h2]
    · exact absurd h (by decide)
    · exact absurd h (by decide)
    · exact absurd h (by decide)
  · intro st hm h
    unfold stateProp at h
    split_ifs at h with h1 h2 h3 h4
    · exact absurd h (by decide)
    · exact absurd h (by decide)
    · exact absurd h (by decide)
    · exact absurd h (by decide)
    · have h2' : (pyEq st.tuya_state (vstr "Charging") ||
          pyEq st.tuya_state (vstr "completed")) = false := by
        cases hb : (pyEq st.tuya_state (vstr "Charging") ||
            pyEq st.tuya_state (vstr "completed"))
        · rfl
        · exact absurd hb h2
      simp [asyncStartCalls, asyncStartMode, statusModel, hm, e1, e2, h2']
  · intro st h1 h2
    simp [asyncStartCalls, asyncStartMode, h1, h2]

/-- A docked current state: mode `"room"`, raw state `"Charging"`,
error `0`. -/
def stRoomDocked : InterpState :=
  { initState with mode := vstr "room", tuya_state := vstr "Charging", error_code := vint 0 }

/-- A cleaning current state: mode `"room"`, raw state `"auto"`, error
`0`. -/
def stRoomCleaning : InterpState :=
  { initState with mode := vstr "room", tuya_state := vstr "auto", error_code := vint 0 }

/-- C5 witness: concrete instances — mode `"Nosweep"` writes `"auto"`;
mode `"room"` docked (raw state `"Charging"`, error `0`) writes
`"auto"`; mode `"room"` cleaning (raw state `"auto"`, error `0`) writes
`"room"`; mode `"Edge"` passes through unchanged. -/
theorem claim_C5_witness :
    asyncStartCalls { initState with mode := vstr "Nosweep" } = [[("5", vstr "auto")]] ∧
    asyncStartCalls stRoomDocked = [[("5", vstr "auto")]] ∧
    asyncStartCalls stRoomCleaning = [[("5", vstr "room")]] ∧
    asyncStartCalls { initState with mode := vstr "Edge" } = [[("5", vstr "Edge")]] :=
  ⟨claim_C5_start_mode_overrides.1 _ (by decide),
   claim_C5_start_mode_overrides.2.1 _ rfl (by decide),
   claim_C5_start_mode_overrides.2.2.1 _ rfl (by decide),
   claim_C5_start_mode_overrides.2.2.2 _ (by decide) (by decide)⟩

/-- A consumables blob position is harmless when the code is absent or
its value decodes successfully at every stage. -/
def blobOk (v : RawValue) : Bool :=
  v == vnone || (decodeConsumables v).isOk

/-- C2 counterexample: the snapshot `{"142": "!"}` carries a corrupt
consumables blob (no base64 data characters, so the decoded text is
empty and `ast.literal_eval` raises); the unguarded decode chain makes
the whole interpretation error instead of leaving the consumables field
absent — refuting "interpreting never raises". -/
theorem claim_C2_counterexample :
    (asyncUpdate none [("142", vstr "!")]).isOk = false := rfl

/-- A successful consumables decode implies the raw value was present
(decoding `None` is a `TypeError`). -/
lemma decodeConsumables_ok_ne_vnone {v : RawValue} {w : PyVal}
    (h : decodeConsumables v = .ok w) : (v == vnone) = false := by
  cases v <;> first
    | rfl
    | exact absurd h (by simp [decodeConsumables])

/-- When the blob code is absent, the consumables step keeps the
current value. -/
lemma updateConsumables_absent (cur : Option PyVal) {v : RawValue} (h : v = vnone) :
    updateConsumables cur v = .ok cur := by
  simp [updateConsumables, h]

/-- When the blob decodes, the consumables step returns the decoded
value. -/
lemma updateConsumables_decodes (cur : Option PyVal) {v : RawValue} {w : PyVal}
    (h : decodeConsumables v = .ok w) : updateConsumables cur v = .ok (some w) := by
  simp [updateConsumables, decodeConsumables_ok_ne_vnone h, h, Except.map]

/-- `async_update` succeeds whenever both consumables steps do, and the
resulting snapshot copies every other field from the raw snapshot. -/
lemma asyncUpdate_ok {prev : Option PyVal} {s : RawSnapshot} {c1 c2 : Option PyVal}
    (h1 : updateConsumables prev (rawGet s TUYA_CODES.G_CONSUMABLES) = .ok c1)
    (h2 : updateConsumables c1 (rawGet s TUYA_CODES.X_CONSUMABLES) = .ok c2) :
    asyncUpdate prev s =
      .ok { battery_level := rawGet s TUYA_CODES.BATTERY_LEVEL
            tuya_state := rawGet s TUYA_CODES.STATE
            error_code := rawGet s TUYA_CODES.ERROR_CODE
            mode := rawGet s TUYA_CODES.MODE
            fan_speed := fanSpeedReadAlias (rawGet s TUYA_CODES.FAN_SPEED)
            cleaning_area := rawGet s TUYA_CODES.CLEANING_AREA
            cleaning_time := rawGet s TUYA_CODES.CLEANING_TIME
            auto_return := rawGet s TUYA_CODES.AUTO_RETURN
            do_not_disturb := rawGet s TUYA_CODES.DO_NOT_DISTURB
            boost_iq := rawGet s TUYA_CODES.BOOST_IQ
            consumables := c2 } := by
  unfold asyncUpdate
  simp only [h1, h2]

/-- C2 (amended): interpretation never raises provided every present
consumables blob (code "142" or "116") decodes successfully at every
stage — all other raw codes, present, absent or malformed, are copied
without any failure path; and when neither consumables code is present
the field keeps its previous value (absent on a fresh entity).  When a
present blob is corrupt, the decode exception propagates
(`claim_C2_counterexample`). -/
theorem claim_C2_interpret_no_raise :
    (∀ (prev : Option PyVal) (s : RawSnapshot),
      blobOk (rawGet s TUYA_CODES.G_CONSUMABLES) = true →
      blobOk (rawGet s TUYA_CODES.X_CONSUMABLES) = true →
      (asyncUpdate prev s).isOk = true) ∧
    (∀ (prev : Option PyVal) (s : RawSnapshot),
      rawGet s TUYA_CODES.G_CONSUMABLES = vnone →
      rawGet s TUYA_CODES.X_CONSUMABLES = vnone →
      (asyncUpdate prev s).map InterpState.consumables = .ok prev) := by
  have step : ∀ (cur : Option PyVal) (v : RawValue), blobOk v = true →
      ∃ c, updateConsumables cur v = .ok c := by
    intro cur v h
    rcases Bool.or_eq_true_iff.mp h with hv | hd
    · exact ⟨cur, updateConsumables_absent cur (by simpa using hv)⟩
    · cases hdec : decodeConsumables v with
      | ok w => exact ⟨some w, updateConsumables_decodes cur hdec⟩
      | error e => rw [hdec] at hd; exact absurd hd (by simp [Except.isOk, Except.toBool])
  constructor
  · intro prev s h1 h2
    obtain ⟨c1, hc1⟩ := step prev (rawGet s TUYA_CODES.G_CONSUMABLES) h1
    obtain ⟨c2, hc2⟩ := step c1 (rawGet s TUYA_CODES.X_CONSUMABLES) h2
    rw [asyncUpdate_ok hc1 hc2]
    rfl
  · intro prev s h1 h2
    rw [asyncUpdate_ok (updateConsumables_absent prev h1) (updateConsumables_absent prev h2)]
    rfl

/-- C2 witness: on the empty snapshot (all codes absent) the update
succeeds and the consumables field stays absent. -/
theorem claim_C2_witness :
    (asyncUpdate none ([] : RawSnapshot)).isOk = true ∧
    (asyncUpdate none ([] : RawSnapshot)).map InterpState.consumables = .ok none :=
  ⟨claim_C2_interpret_no_raise.1 none [] (by decide) (by decide),
   claim_C2_interpret_no_raise.2 none [] rfl rfl⟩

/-- C8: consumables priority — when both blob codes are present and
decodable, the later-checked code "116" wins; when only one of the two
codes is present, the wear value is decoded from that one. -/
theorem claim_C8_consumables_priority :
    (∀ (prev : Option PyVal) (s : RawSnapshot) (w1 w2 : PyVal),
      decodeConsumables (rawGet s TUYA_CODES.G_CONSUMABLES) = .ok w1 →
      decodeConsumables (rawGet s TUYA_CODES.X_CONSUMABLES) = .ok w2 →
      (asyncUpdate prev s).map InterpState.consumables = .ok (some w2)) ∧
    (∀ (prev : Option PyVal) (s : RawSnapshot) (w1 : PyVal),
      decodeConsumables (rawGet s TUYA_CODES.G_CONSUMABLES) = .ok w1 →
      rawGet s TUYA_CODES.X_CONSUMABLES = vnone →
      (asyncUpdate prev s).map InterpState.consumables = .ok (some w1)) ∧
    (∀ (prev : Option PyVal) (s : RawSnapshot) (w2 : PyVal),
      rawGet s TUYA_CODES.G_CONSUMABLES = vnone →
      decodeConsumables (rawGet s TUYA_CODES.X_CONSUMABLES) = .ok w2 →
      (asyncUpdate prev s).map InterpState.consumables = .ok (some w2)) := by
  refine ⟨?_, ?_, ?_⟩
  · intro prev s w1 w2 h1 h2
    rw [asyncUpdate_ok (updateConsumables_decodes prev h1) (updateConsumables_decodes _ h2)]
    rfl
  · intro prev s w1 h1 h2
    rw [asyncUpdate_ok (updateConsumables_decodes prev h1) (updateConsumables_absent _ h2)]
    rfl
  · intro prev s w2 h1 h2
    rw [asyncUpdate_ok (updateConsumables_absent prev h1) (updateConsumables_decodes _ h2)]
    rfl

/-- A known-good legacy consumables blob:
`base64({'consumable': {'duration': 5}})`. -/
def sampleBlob142 : String := "eydjb25zdW1hYmxlJzogeydkdXJhdGlvbic6IDV9fQ=="

/-- A known-good current consumables blob:
`base64({'consumable': {'duration': 7}})`. -/
def sampleBlob116 : String := "eydjb25zdW1hYmxlJzogeydkdXJhdGlvbic6IDd9fQ=="

/-- C8 witness: with both sample blobs present the interpreted wear
value is code "116"'s `7`; with only one code present, that code's
value is taken. -/
theorem claim_C8_witness :
    (asyncUpdate none [("142", vstr sampleBlob142), ("116", vstr sampleBlob116)]).map
      InterpState.consumables = .ok (some (.pint 7)) ∧
    (asyncUpdate none [("142", vstr sampleBlob142)]).map
      InterpState.consumables = .ok (some (.pint 5)) ∧
    (asyncUpdate none [("116", vstr sampleBlob116)]).map
      InterpState.consumables = .ok (some (.pint 7)) :=
  ⟨claim_C8_consumables_priority.1 none _ (.pint 5) (.pint 7) rfl rfl,
   claim_C8_consumables_priority.2.1 none _ (.pint 5) rfl rfl,
   claim_C8_consumables_priority.2.2 none _ (.pint 7) rfl rfl⟩

/-- Membership in a conditional list chunk. -/
lemma mem_ite_nil {α : Type} (x : α) (c : Prop) [Decidable c] (l : List α) :
    (x ∈ if c then l else []) ↔ c ∧ x ∈ l := by
  split <;> simp [*]

/-- A consumables step on a present code yields a present value. -/
lemma updateConsumables_present_isSome {cur c : Option PyVal} {v : RawValue}
    (h : updateConsumables cur v = .ok c) (hv : ¬v = vnone) : c.isSome = true := by
  unfold updateConsumables at h
  rw [if_neg (by simp [hv])] at h
  cases hd : decodeConsumables v with
  | error e => rw [hd] at h; exact absurd h (by simp [Except.map])
  | ok w =>
    rw [hd] at h
    simp only [Except.map] at h
    injection h with h
    rw [← h]
    rfl

/-- A consumables step on an absent code keeps the current value. -/
lemma updateConsumables_absent_eq {cur c : Option PyVal} {v : RawValue}
    (h : updateConsumables cur v = .ok c) (hv : v = vnone) : c = cur := by
  rw [updateConsumables_absent cur hv] at h
  injection h with h
  exact h.symm

/-- C9: interpretation populates every semantic field from the raw
snapshot with no dependence on any capability profile (the update
functions take none): the copied fields equal the raw snapshot values,
and a present consumables code yields a present consumables field; the
gating happens only in `extra_state_attributes`, where each extended
attribute key appears if and only if its integration feature flag is
set, while `error` and `mode` are always exposed. -/
theorem claim_C9_populate_and_gate :
    (∀ (prev : Option PyVal) (s : RawSnapshot) (st : InterpState),
      asyncUpdate prev s = .ok st →
      st.cleaning_area = rawGet s TUYA_CODES.CLEANING_AREA ∧
      st.cleaning_time = rawGet s TUYA_CODES.CLEANING_TIME ∧
      st.auto_return = rawGet s TUYA_CODES.AUTO_RETURN ∧
      st.do_not_disturb = rawGet s TUYA_CODES.DO_NOT_DISTURB ∧
      st.boost_iq = rawGet s TUYA_CODES.BOOST_IQ ∧
      st.mode = rawGet s TUYA_CODES.MODE ∧
      st.error_code = rawGet s TUYA_CODES.ERROR_CODE ∧
      st.battery_level = rawGet s TUYA_CODES.BATTERY_LEVEL ∧
      st.tuya_state = rawGet s TUYA_CODES.STATE ∧
      st.fan_speed = fanSpeedReadAlias (rawGet s TUYA_CODES.FAN_SPEED)) ∧
    (∀ (prev : Option PyVal) (s : RawSnapshot) (st : InterpState),
      asyncUpdate prev s = .ok st →
      rawGet s TUYA_CODES.G_CONSUMABLES ≠ vnone ∨
        rawGet s TUYA_CODES.X_CONSUMABLES ≠ vnone →
      st.consumables.isSome = true) ∧
    (∀ (st : InterpState) (supported robovac_supported : Nat),
      ("cleaning_area" ∈ attrKeys st supported robovac_supported ↔
        hasFlag robovac_supported RoboVacEntityFeature.CLEANING_AREA = true) ∧
      ("cleaning_time" ∈ attrKeys st supported robovac_supported ↔
        hasFlag robovac_supported RoboVacEntityFeature.CLEANING_TIME = true) ∧
      ("auto_return" ∈ attrKeys st supported robovac_supported ↔
        hasFlag robovac_supported RoboVacEntityFeature.AUTO_RETURN = true) ∧
      ("do_not_disturb" ∈ attrKeys st supported robovac_supported ↔
        hasFlag robovac_supported RoboVacEntityFeature.DO_NOT_DISTURB = true) ∧
      ("boost_iq" ∈ attrKeys st supported robovac_supported ↔
        hasFlag robovac_supported RoboVacEntityFeature.BOOST_IQ = true) ∧
      ("consumables" ∈ attrKeys st supported robovac_supported ↔
        hasFlag robovac_supported RoboVacEntityFeature.CONSUMABLES = true) ∧
      "error" ∈ attrKeys st supported robovac_supported ∧
      "mode" ∈ attrKeys st supported robovac_supported) := by
  refine ⟨?_, ?_, ?_⟩
  · intro prev s st h
    unfold asyncUpdate at h
    cases hc1 : updateConsumables prev (rawGet s TUYA_CODES.G_CONSUMABLES) with
    | error e => simp only [hc1] at h; exact Except.noConfusion h
    | ok c1 =>
      simp only [hc1] at h
      cases hc2 : updateConsumables c1 (rawGet s TUYA_CODES.X_CONSUMABLES) with
      | error e => simp only [hc2] at h; exact Except.noConfusion h
      | ok c2 =>
        simp only [hc2] at h
        injection h with h
        subst h
        exact ⟨rfl, rfl, rfl, rfl, rfl, rfl, rfl, rfl, rfl, rfl⟩
  · intro prev s st h hp
    unfold asyncUpdate at h
    cases hc1 : updateConsumables prev (rawGet s TUYA_CODES.G_CONSUMABLES) with
    | error e => simp only [hc1] at h; exact Except.noConfusion h
    | ok c1 =>
      simp only [hc1] at h
      cases hc2 : updateConsumables c1 (rawGet s TUYA_CODES.X_CONSUMABLES) with
      | error e => simp only [hc2] at h; exact Except.noConfusion h
      | ok c2 =>
        simp only [hc2] at h
        injection h with h
        subst h
        show c2.isSome = true
        by_cases hv2 : rawGet s TUYA_CODES.X_CONSUMABLES = vnone
        · rcases hp with hp | hp
          · rw [updateConsumables_absent_eq hc2 hv2]
            exact updateConsumables_present_isSome hc1 hp
          · exact absurd hv2 hp
        · exact updateConsumables_present_isSome hc2 hv2
  · intro st supported robovac_supported
    refine ⟨?_, ?_, ?_, ?_, ?_, ?_, ?_, ?_⟩ <;>
      simp [attrKeys, extraStateAttributes, apply_ite (List.map Prod.fst), mem_ite_nil]

/-- C9 witness: on the empty snapshot the interpreted cleaning area is
the absent raw value; a snapshot carrying only code "116" yields a
present consumables field; and with the G-series feature mask `124` the
`cleaning_area` key is exposed exactly when its flag is set. -/
theorem claim_C9_witness :
    initState.cleaning_area = vnone ∧
    ({ initState with consumables := some (.pint 7) } : InterpState).consumables.isSome
      = true ∧
    ("cleaning_area" ∈ attrKeys initState 0 124 ↔
      hasFlag 124 RoboVacEntityFeature.CLEANING_AREA = true) :=
  ⟨(claim_C9_populate_and_gate.1 none [] initState rfl).1,
   claim_C9_populate_and_gate.2.1 none [("116", vstr sampleBlob116)]
     { initState with consumables := some (.pint 7) } rfl (Or.inr (by decide)),
   (claim_C9_populate_and_gate.2.2 initState 0 124).1⟩

end Robovac
